import Mathlib

/-!
Verification development for the websocket stats bridge of
`se-stats-exporter` (module `src/stats_ws/mod.rs`).

The embedding models, from the source:
* the wire-protocol data model (`RawStatsMessage`, `StatsChangeMessage`) and
  its serde_json deserialization, over an explicit JSON value type and a
  JSON text parser following serde_json's number typing;
* the outgoing subscribe command built by `WsClient::subscribe_to_stats`;
* the background pump loop spawned in `WsClient::new`, as a step function
  over an explicit state, with the per-iteration socket/queue outcomes
  supplied as an event record;
* the bounded flume channels (`flume::bounded(32)` / `flume::bounded(1024)`)
  and `WsClient::recv_message`.
-/

namespace StatsWs

/-- JSON values as serde_json represents them (without `arbitrary_precision`):
integer-typed numbers carry their exact value (serde_json stores them as `u64`
or `i64`, so the parser below only ever builds integers in those ranges);
float-typed numbers — any literal with a fraction part or an exponent, plus
integer literals outside both ranges — are collapsed into one constructor,
because every decoder in this development rejects float-typed numbers
outright, whatever their value. -/
inductive Json where
  | null
  | bool (b : Bool)
  | int (n : Int)
  | floatNum
  | str (s : String)
  | arr (items : List Json)
  | obj (fields : List (String × Json))

/-- JSON insignificant whitespace. -/
def jsonWs (c : Char) : Bool :=
  c == ' ' || c == '\t' || c == '\n' || c == '\r'

def dropWs (cs : List Char) : List Char := cs.dropWhile jsonWs

def digit? (c : Char) : Bool := '0' ≤ c && c ≤ '9'

/-- Value of a run of decimal digits. -/
def digitsNat (ds : List Char) : Nat :=
  ds.foldl (fun a c => 10 * a + (c.toNat - 48)) 0

def hexDigitVal (c : Char) : Option Nat :=
  if '0' ≤ c && c ≤ '9' then some (c.toNat - 48)
  else if 'a' ≤ c && c ≤ 'f' then some (c.toNat - 97 + 10)
  else if 'A' ≤ c && c ≤ 'F' then some (c.toNat - 65 + 10)
  else none

def escChar? (c : Char) : Option Char :=
  match c with
  | '\"' => some '\"'
  | '\\' => some '\\'
  | '/' => some '/'
  | 'b' => some (Char.ofNat 8)
  | 'f' => some (Char.ofNat 12)
  | 'n' => some '\n'
  | 'r' => some '\r'
  | 't' => some '\t'
  | _ => none

/-- Body of a JSON string, after the opening quote. Surrogate-pair handling is
not modelled (no input in this development uses `\u` escapes at all). -/
def parseStringRest (cs : List Char) (acc : List Char) :
    Except String (String × List Char) :=
  match cs with
  | [] => .error "unterminated string"
  | '\"' :: rest => .ok (⟨acc.reverse⟩, rest)
  | '\\' :: 'u' :: h1 :: h2 :: h3 :: h4 :: rest =>
      match hexDigitVal h1, hexDigitVal h2, hexDigitVal h3, hexDigitVal h4 with
      | some a, some b, some c, some d =>
          parseStringRest rest (Char.ofNat (((a * 16 + b) * 16 + c) * 16 + d) :: acc)
      | _, _, _, _ => .error "bad unicode escape"
  | '\\' :: e :: rest =>
      match escChar? e with
      | some c => parseStringRest rest (c :: acc)
      | none => .error "bad escape character"
  | c :: rest =>
      if c.toNat < 32 then .error "control character in string"
      else parseStringRest rest (c :: acc)

/-- Exponent suffix of a number, if present; `true` when one was consumed. -/
def parseExpPart (cs : List Char) : Except String (Bool × List Char) :=
  match cs with
  | 'e' :: r =>
      (let r1 := match r with
        | '+' :: t => t
        | '-' :: t => t
        | _ => r
      let (eds, r2) := r1.span digit?
      if eds.isEmpty then .error "missing digits in exponent" else .ok (true, r2))
  | 'E' :: r =>
      (let r1 := match r with
        | '+' :: t => t
        | '-' :: t => t
        | _ => r
      let (eds, r2) := r1.span digit?
      if eds.isEmpty then .error "missing digits in exponent" else .ok (true, r2))
  | _ => .ok (false, cs)

/-- A JSON number, with serde_json's typing: a fraction part or an exponent
makes the number float-typed, as do integer literals above `u64::MAX` or below
`i64::MIN`; serde_json also parses `-0` as a float. Everything else is an
exact integer. -/
def parseNumber (cs : List Char) : Except String (Json × List Char) :=
  let (neg, cs1) :=
    match cs with
    | '-' :: r => (true, r)
    | _ => (false, cs)
  let (ds, cs2) := cs1.span digit?
  if ds.isEmpty then .error "invalid number literal"
  else if 1 < ds.length && ds.headD 'x' == '0' then .error "leading zero in number"
  else
    match cs2 with
    | '.' :: r =>
        let (fd, r2) := r.span digit?
        if fd.isEmpty then .error "missing digits after decimal point"
        else
          match parseExpPart r2 with
          | .error e => .error e
          | .ok (_, r3) => .ok (Json.floatNum, r3)
    | _ =>
        match parseExpPart cs2 with
        | .error e => .error e
        | .ok (true, r3) => .ok (Json.floatNum, r3)
        | .ok (false, r3) =>
            let n := digitsNat ds
            if neg then
              if n = 0 then .ok (Json.floatNum, r3)
              else if n ≤ 2 ^ 63 then .ok (Json.int (-(n : Int)), r3)
              else .ok (Json.floatNum, r3)
            else if n < 2 ^ 64 then .ok (Json.int (n : Int), r3)
            else .ok (Json.floatNum, r3)

mutual

/-- One JSON value. Fuel only bounds recursion depth; the callers below pass
one more than the input length, which each recursive call stays under because
every level consumes at least one character first. -/
def parseJsonValue (fuel : Nat) (cs : List Char) : Except String (Json × List Char) :=
  match fuel with
  | 0 => .error "recursion limit reached"
  | fuel + 1 =>
      match dropWs cs with
      | [] => .error "unexpected end of input"
      | 'n' :: 'u' :: 'l' :: 'l' :: rest => .ok (.null, rest)
      | 't' :: 'r' :: 'u' :: 'e' :: rest => .ok (.bool true, rest)
      | 'f' :: 'a' :: 'l' :: 's' :: 'e' :: rest => .ok (.bool false, rest)
      | '\"' :: rest =>
          (match parseStringRest rest [] with
           | .error e => .error e
           | .ok (s, rest1) => .ok (.str s, rest1))
      | '[' :: rest =>
          (match dropWs rest with
           | ']' :: rest1 => .ok (.arr [], rest1)
           | more =>
               match parseItems fuel more [] with
               | .error e => .error e
               | .ok (items, rest1) => .ok (.arr items, rest1))
      | '\x7b' :: rest =>
          (match dropWs rest with
           | '\x7d' :: rest1 => .ok (.obj [], rest1)
           | more =>
               match parseFields fuel more [] with
               | .error e => .error e
               | .ok (fields, rest1) => .ok (.obj fields, rest1))
      | c :: rest =>
          if c == '-' || digit? c then parseNumber (c :: rest)
          else .error "unexpected character"

/-- Comma-separated array items up to the closing bracket, accumulated in
reverse. -/
def parseItems (fuel : Nat) (cs : List Char) (acc : List Json) :
    Except String (List Json × List Char) :=
  match fuel with
  | 0 => .error "recursion limit reached"
  | fuel + 1 =>
      match parseJsonValue fuel cs with
      | .error e => .error e
      | .ok (v, rest) =>
          match dropWs rest with
          | ',' :: rest1 => parseItems fuel rest1 (v :: acc)
          | ']' :: rest1 => .ok ((v :: acc).reverse, rest1)
          | _ => .error "expected comma or closing bracket in array"

/-- Comma-separated object members up to the closing brace, accumulated in
reverse, so the decoded field list keeps wire order. -/
def parseFields (fuel : Nat) (cs : List Char) (acc : List (String × Json)) :
    Except String (List (String × Json) × List Char) :=
  match fuel with
  | 0 => .error "recursion limit reached"
  | fuel + 1 =>
      match dropWs cs with
      | '\"' :: rest =>
          (match parseStringRest rest [] with
           | .error e => .error e
           | .ok (key, rest1) =>
               match dropWs rest1 with
               | ':' :: rest2 =>
                   (match parseJsonValue fuel rest2 with
                    | .error e => .error e
                    | .ok (v, rest3) =>
                        match dropWs rest3 with
                        | ',' :: rest4 => parseFields fuel rest4 ((key, v) :: acc)
                        | '\x7d' :: rest4 => .ok (((key, v) :: acc).reverse, rest4)
                        | _ => .error "expected comma or closing brace in object")
               | _ => .error "expected colon after object key")
      | _ => .error "expected string key in object"

end

/-- `serde_json::from_str`'s text-to-value front end: one JSON document with
nothing but whitespace after it. -/
def parseJson (s : String) : Except String Json :=
  match parseJsonValue (s.length + 1) s.toList with
  | .error e => .error e
  | .ok (j, rest) =>
      if (dropWs rest).isEmpty then .ok j else .error "trailing characters after value"

/-- Look a struct field up as serde's derived map visitors do: scanning the
members in order, a name that never occurs is a missing-field error, a
second occurrence of it is a duplicate-field error, and otherwise its single
value is returned — every error naming the field. Members the decoder never
asks for are ignored and may repeat freely, serde's default for unknown
fields. (On a duplicated member whose first value is also ill-typed, serde
reports the type error and this model the duplicate — both fail.) -/
def getField (fields : List (String × Json)) (name : String) : Except String Json :=
  match fields with
  | [] => .error ("missing field " ++ name)
  | (k, v) :: rest =>
      if k = name then
        match rest.lookup name with
        | none => .ok v
        | some _ => .error ("duplicate field " ++ name)
      else getField rest name

/-- String deserialization (`Cow<str>` fields): only a JSON string is
accepted. -/
def asString : Json → Except String String
  | .str s => .ok s
  | _ => .error "invalid type: expected a string"

/-- `u64` deserialization as serde_json performs it: only an integer-typed,
non-negative number is accepted, and its value is returned exactly.
Float-typed numbers (so every literal with a fraction part or exponent) and
negative integers are errors; nothing is truncated, rounded or wrapped. The
out-of-range branch is unreachable from `parseJson`, which never builds an
integer at or above `2 ^ 64`; it mirrors serde_json's `u64`-bounded integer
representation. -/
def asU64 : Json → Except String Nat
  | .int n =>
      if n < 0 then .error "invalid value: negative integer where u64 expected"
      else if n < 2 ^ 64 then .ok n.toNat
      else .error "invalid value: integer out of u64 range"
  | .floatNum => .error "invalid type: float where u64 expected"
  | _ => .error "invalid type: expected u64"

/-- The tagged union of stat changes (`StatsChangeMessage` in the source,
with `serde(tag = "type", rename_all = "lowercase")`). -/
inductive StatsChangeMessage where
  | Chatters (key : String) (amount : Nat)
  | Emotes (key : String) (id : String) (provider : String) (amount : Nat)
deriving DecidableEq

/-- Fields of the `Chatters` variant, from the buffered member list (the tag
member itself is ignored by the variant decoder, and so is any other unknown
member, serde's default). -/
def decodeChatters (fields : List (String × Json)) : Except String StatsChangeMessage :=
  match getField fields "key" with
  | .error e => .error e
  | .ok kj =>
      match asString kj with
      | .error e => .error e
      | .ok key =>
          match getField fields "amount" with
          | .error e => .error e
          | .ok aj =>
              match asU64 aj with
              | .error e => .error e
              | .ok amount => .ok (.Chatters key amount)

/-- Fields of the `Emotes` variant. -/
def decodeEmotes (fields : List (String × Json)) : Except String StatsChangeMessage :=
  match getField fields "key" with
  | .error e => .error e
  | .ok kj =>
      match asString kj with
      | .error e => .error e
      | .ok key =>
          match getField fields "id" with
          | .error e => .error e
          | .ok ij =>
              match asString ij with
              | .error e => .error e
              | .ok id =>
                  match getField fields "provider" with
                  | .error e => .error e
                  | .ok pj =>
                      match asString pj with
                      | .error e => .error e
                      | .ok provider =>
                          match getField fields "amount" with
                          | .error e => .error e
                          | .ok aj =>
                              match asU64 aj with
                              | .error e => .error e
                              | .ok amount => .ok (.Emotes key id provider amount)

/-- The `Chatters` variant from serde's sequence representation of the
internally tagged enum (`TaggedContentVisitor::visit_seq`): after the tag,
the remaining elements fill the variant's fields in declaration order; a
missing element is a length error and leftover elements are rejected when
the buffered sequence is drained. -/
def decodeChattersSeq (items : List Json) : Except String StatsChangeMessage :=
  match items with
  | [] => .error "invalid length 0, expected variant chatters with 2 elements"
  | kj :: rest1 =>
      match asString kj with
      | .error e => .error e
      | .ok key =>
          match rest1 with
          | [] => .error "invalid length 1, expected variant chatters with 2 elements"
          | aj :: rest2 =>
              match asU64 aj with
              | .error e => .error e
              | .ok amount =>
                  match rest2 with
                  | [] => .ok (.Chatters key amount)
                  | _ => .error "unexpected trailing elements after variant chatters"

/-- The `Emotes` variant from serde's sequence representation. -/
def decodeEmotesSeq (items : List Json) : Except String StatsChangeMessage :=
  match items with
  | [] => .error "invalid length 0, expected variant emotes with 4 elements"
  | kj :: rest1 =>
      match asString kj with
      | .error e => .error e
      | .ok key =>
          match rest1 with
          | [] => .error "invalid length 1, expected variant emotes with 4 elements"
          | ij :: rest2 =>
              match asString ij with
              | .error e => .error e
              | .ok id =>
                  match rest2 with
                  | [] => .error "invalid length 2, expected variant emotes with 4 elements"
                  | pj :: rest3 =>
                      match asString pj with
                      | .error e => .error e
                      | .ok provider =>
                          match rest3 with
                          | [] => .error "invalid length 3, expected variant emotes with 4 elements"
                          | aj :: rest4 =>
                              match asU64 aj with
                              | .error e => .error e
                              | .ok amount =>
                                  match rest4 with
                                  | [] => .ok (.Emotes key id provider amount)
                                  | _ => .error "unexpected trailing elements after variant emotes"

/-- serde's internally tagged enum deserialization for `StatsChangeMessage`,
in both of its self-describing representations. A map dispatches on its
`type` member (fetched like any other field, so a missing or duplicated tag
fails, naming it) by exact, case-sensitive comparison against the lowercased
variant names; any other tag string names itself in an unknown-variant
error. A sequence carries the tag as its first element, the variant's fields
following positionally; an empty sequence is missing its tag, and a
non-string first element — in particular a map, the only shape placed there
by the batch envelopes below — fails tag deserialization in serde exactly as
here. (serde additionally accepts a numeric variant index as tag; that
representation is not modelled and no statement below puts a number in tag
position.) -/
def decodeStatsChangeMessage (j : Json) : Except String StatsChangeMessage :=
  match j with
  | .obj fields =>
      (match getField fields "type" with
       | .error e => .error e
       | .ok (.str tag) =>
           if tag = "chatters" then decodeChatters fields
           else if tag = "emotes" then decodeEmotes fields
           else .error ("unknown variant " ++ tag ++ ", expected chatters or emotes")
       | .ok _ => .error "invalid type: tag field type must be a string")
  | .arr [] => .error "missing field type"
  | .arr (tagJ :: rest) =>
      (match tagJ with
       | .str tag =>
           if tag = "chatters" then decodeChattersSeq rest
           else if tag = "emotes" then decodeEmotesSeq rest
           else .error ("unknown variant " ++ tag ++ ", expected chatters or emotes")
       | _ => .error "invalid type: tag must be a string")
  | _ => .error "invalid type: expected a map or sequence for internally tagged enum"

/-- Elementwise decoding of a JSON sequence, failing at the first bad
element, as serde's `Vec` deserialization does. -/
def decodeAll (f : Json → Except String StatsChangeMessage) :
    List Json → Except String (List StatsChangeMessage)
  | [] => .ok []
  | x :: xs =>
      match f x with
      | .error e => .error e
      | .ok y =>
          match decodeAll f xs with
          | .error e => .error e
          | .ok ys => .ok (y :: ys)

/-- The inbound envelope (`RawStatsMessage` in the source): `id`, `type`
(field name `typ`, renamed on the wire) and a flat `data` sequence. Unknown
members such as `destination` and `event` are ignored, serde's default. -/
structure RawStatsMessage where
  id : String
  typ : String
  data : List StatsChangeMessage
deriving DecidableEq

/-- Derived deserialization of the envelope struct. -/
def decodeRawStatsMessage (j : Json) : Except String RawStatsMessage :=
  match j with
  | .obj fields =>
      (match getField fields "id" with
       | .error e => .error e
       | .ok idJ =>
           match asString idJ with
           | .error e => .error e
           | .ok id =>
               match getField fields "type" with
               | .error e => .error e
               | .ok typJ =>
                   match asString typJ with
                   | .error e => .error e
                   | .ok typ =>
                       match getField fields "data" with
                       | .error e => .error e
                       | .ok (.arr items) =>
                           (match decodeAll decodeStatsChangeMessage items with
                            | .error e => .error e
                            | .ok data => .ok ⟨id, typ, data⟩)
                       | .ok _ => .error "invalid type: field data must be a sequence")
  | _ => .error "invalid type: expected a map for struct RawStatsMessage"

/-- `serde_json::from_str::<RawStatsMessage>`. -/
def rawStatsFromStr (s : String) : Except String RawStatsMessage :=
  match parseJson s with
  | .error e => .error e
  | .ok j => decodeRawStatsMessage j

/-- `serde_json::from_str::<StatsChangeMessage>`, for the element-level
examples of the spec. -/
def statChangeFromStr (s : String) : Except String StatsChangeMessage :=
  match parseJson s with
  | .error e => .error e
  | .ok j => decodeStatsChangeMessage j

/-- Websocket frames as they travel through the two queues. Control frames
never appear in any claim, so only the payload-bearing constructors are
modelled; a binary frame carries either the string its bytes decode to or
nothing when they are not valid UTF-8, which is all `into_text` inspects. -/
inductive Message where
  | text (s : String)
  | binary (utf8 : Option String)
deriving DecidableEq

/-- The error enum of `stats_ws::Error`, one constructor per source variant
(payloads dropped except the serde message carried for parse failures). -/
inductive Error where
  | ConnectToServerError
  | RecvOutgoingMessageError
  | SendOutgoingMessageError
  | RecvIncomingMessageError
  | SendIncomingMessageError
  | ReadMessageError
  | WriteMessageError
  | JoinHandleError
  | ConvertWsMessage
  | ParseMessageError (msg : String)
deriving DecidableEq

/-- `tungstenite::Message::into_text`, with its failure mapped to
`Error::ConvertWsMessage` as `recv_message` does. -/
def intoText : Message → Except Error String
  | .text s => .ok s
  | .binary (some s) => .ok s
  | .binary none => .error .ConvertWsMessage

/-- What `recv_message` does with one dequeued frame: convert it to text,
parse it as a `RawStatsMessage` (parse failures wrapped in
`Error::ParseMessageError`), and surface the owned `data` sequence. -/
def processFrame (m : Message) : Except Error (List StatsChangeMessage) :=
  match intoText m with
  | .error e => .error e
  | .ok body =>
      match rawStatsFromStr body with
      | .error e => .error (.ParseMessageError e)
      | .ok raw => .ok raw.data

/-- One `recv_message` call against the current contents of the incoming
queue: `none` when the queue is empty (the call then suspends, or fails by
disconnection once the pump drops its sender — neither is reached by any
claim below); otherwise the oldest frame is dequeued and processed, and the
rest of the queue remains. -/
def recvMessage : List Message → Option (Except Error (List StatsChangeMessage) × List Message)
  | [] => none
  | m :: rest => some (processFrame m, rest)

/-- `flume::bounded(32)`, the outgoing command queue's capacity. -/
def outgoingCapacity : Nat := 32

/-- `flume::bounded(1024)`, the incoming frame queue's capacity. -/
def incomingCapacity : Nat := 1024

/-- The state the pump loop in `WsClient::new` reads at the top of an
iteration: the two socket liveness flags, the two disconnection flags of the
channel ends the pump does not hold, and the buffered contents of both
queues (head = oldest). -/
structure PumpState where
  canRead : Bool
  canWrite : Bool
  incomingConsumerGone : Bool
  outgoingProducerGone : Bool
  outgoing : List Message
  incoming : List Message
deriving DecidableEq

/-- Decidable equality for `Except`, needed by the derived instances on the
pump records below. -/
instance {ε α : Type} [DecidableEq ε] [DecidableEq α] : DecidableEq (Except ε α) :=
  fun a b =>
    match a, b with
    | .ok x, .ok y =>
        if h : x = y then .isTrue (by rw [h]) else .isFalse (by intro he; cases he; exact h rfl)
    | .error x, .error y =>
        if h : x = y then .isTrue (by rw [h]) else .isFalse (by intro he; cases he; exact h rfl)
    | .ok _, .error _ => .isFalse (by intro he; cases he)
    | .error _, .ok _ => .isFalse (by intro he; cases he)

/-- The externally determined outcomes of one loop iteration: what
`ws.read_message()` returns if called, whether `ws.write_message` succeeds
if called, and whether the incoming send finds its receiver still connected
(a `false` models the consumer dropping between the loop's liveness check
and the `send` call — the only way flume's `send` on an unbounded-space
check path can fail). -/
structure IterEvent where
  readResult : Except Unit Message
  writeOk : Bool
  pushOk : Bool
deriving DecidableEq

/-- Outcome of one iteration: continue with a new state, or terminate with
the pump task's result; either way recording the frame written to the
socket this iteration, if any. -/
inductive StepResult where
  | cont (wrote : Option Message) (s : PumpState)
  | term (wrote : Option Message) (r : Except Error Unit)
deriving DecidableEq

/-- The frame the iteration wrote to the socket, if any. -/
def StepResult.wroteFrame : StepResult → Option Message
  | .cont w _ => w
  | .term w _ => w

/-- The `while` condition of the pump loop: `ws.can_write() && ws.can_read()
&& !incoming_message_sender.is_disconnected() &&
!outgoing_message_receiver.is_disconnected()`. -/
def pumpGuard (s : PumpState) : Bool :=
  s.canWrite && s.canRead && !s.incomingConsumerGone && !s.outgoingProducerGone

/-- The read half of the loop body: if the incoming queue is not full, read
one frame (failure terminates with `Error::ReadMessageError` through `?`)
and push it raw onto the incoming queue (failure terminates with
`Error::SendIncomingMessageError` through `?`); a full queue skips the read
entirely. -/
def readPhase (wrote : Option Message) (s : PumpState) (ev : IterEvent) : StepResult :=
  if s.incoming.length < incomingCapacity then
    match ev.readResult with
    | .error _ => .term wrote (.error .ReadMessageError)
    | .ok m =>
        if ev.pushOk then .cont wrote { s with incoming := s.incoming ++ [m] }
        else .term wrote (.error .SendIncomingMessageError)
  else .cont wrote s

/-- One iteration of the pump loop. A false guard falls out of the `while`
and reaches the task's final `Ok(())`. Otherwise the write half runs first:
a non-empty outgoing queue has its oldest message removed (`recv` on a
channel with a buffered message always succeeds, so the
`RecvOutgoingMessageError` arm of the source is unreachable) and written to
the socket, a failed write terminating with `Error::WriteMessageError`;
then the read half runs. -/
def pumpStep (s : PumpState) (ev : IterEvent) : StepResult :=
  if pumpGuard s then
    match s.outgoing with
    | [] => readPhase none s ev
    | m :: rest =>
        if ev.writeOk then readPhase (some m) { s with outgoing := rest } ev
        else .term none (.error .WriteMessageError)
  else .term none (.ok ())

/-- A flume bounded channel's buffer, viewed from its send side (head =
oldest). -/
structure BoundedQueue where
  cap : Nat
  items : List Message
deriving DecidableEq

/-- Outcome of `Sender::send_async`: an immediate push when there is spare
capacity, suspension of the caller when the buffer is full (flume never
drops the message and never fails a send for fullness), and an immediate
`SendError` when every receiver has been dropped. -/
inductive SendOutcome where
  | pushed (q : BoundedQueue)
  | suspended
  | disconnected
deriving DecidableEq

/-- `send_async` against a buffer snapshot, with `receiverAlive` telling
whether the channel still has its receiver. -/
def sendAsync (q : BoundedQueue) (receiverAlive : Bool) (m : Message) : SendOutcome :=
  if !receiverAlive then .disconnected
  else if q.items.length < q.cap then .pushed ⟨q.cap, q.items ++ [m]⟩
  else .suspended

/-- The outgoing queue as `WsClient::new` creates it: capacity 32, empty. -/
def initialOutgoing : BoundedQueue := ⟨outgoingCapacity, []⟩

/-- `n` successive `send_async` calls of the same message with the receiver
alive and nothing draining; `none` as soon as one call does not push. -/
def sendRepeat (m : Message) : Nat → BoundedQueue → Option BoundedQueue
  | 0, q => some q
  | n + 1, q =>
      match sendAsync q true m with
      | .pushed q1 => sendRepeat m n q1
      | _ => none

/-- The frame body built by `WsClient::subscribe_to_stats`: the source's
format string with the channel name spliced into the middle of the room
path, verbatim and unescaped. -/
def subscribeCommand (channel : String) : String :=
  "\x7b\"command\":\"subscribe\",\"data\":\x7b\"room\":\"twitchstats:" ++ channel
    ++ ":stats\"\x7d\x7d"

/-- `WsClient::subscribe_to_stats`'s outgoing frame (a text frame; the
enqueueing itself is `sendAsync` on the outgoing queue). -/
def subscribe_to_stats (channel : String) : Message := .text (subscribeCommand channel)

/-- Modelled from the spec: the `encode_subscribe` frame body the spec
claims, with the room interpolated bare. Kept for comparison against
`subscribeCommand` only. -/
def encode_subscribe_spec (room : String) : String :=
  "\x7b\"command\":\"subscribe\",\"data\":\x7b\"room\":\"" ++ room ++ "\"\x7d\x7d"

/-- The chatters element of the spec's examples. -/
def chattersExampleText : String :=
  "\x7b\"type\":\"chatters\",\"key\":\"fishpat\",\"amount\":1\x7d"

/-- The emotes element of the spec's examples. -/
def emotesExampleText : String :=
  "\x7b\"type\":\"emotes\",\"key\":\"DuckerZ\",\"id\":\"573d38b50ffbf6cc5cc38dc9\",\"provider\":\"bttv\",\"amount\":62\x7d"

/-- The flat envelope of test `stat_message_parsing1`: the spec's id, the
extra top-level `destination` and `event` members, and two data entries. -/
def envelopeExampleText : String :=
  "\x7b \"id\": \"3d40e110-24fe-48a2-a76f-eac2b380ddb3\", \"type\": \"message\", "
    ++ "\"destination\": \x7b \"type\": \"room\", \"value\": \"twitchstats:fischklatscher:stats\" \x7d, "
    ++ "\"event\": \"\", \"data\": [ \x7b \"type\": \"chatters\", \"key\": \"fishpat\", \"amount\": 1 \x7d, "
    ++ "\x7b \"type\": \"emotes\", \"key\": \"DuckerZ\", \"id\": \"573d38b50ffbf6cc5cc38dc9\", "
    ++ "\"provider\": \"bttv\", \"amount\": 62 \x7d ] \x7d"

/-- A small instance of the `event == "batch"` envelope shape of test
`stat_message_parsing2`: `data` is a sequence of sequences of stat
changes. -/
def batchExampleText : String :=
  "\x7b\"id\":\"x\",\"type\":\"message\",\"event\":\"batch\",\"data\":[[\x7b\"type\":\"chatters\",\"key\":\"a\",\"amount\":1\x7d]]\x7d"

/-- The parsed member list of `batchExampleText`, spelled out for the batch
witness below. -/
def batchExampleFields : List (String × Json) :=
  [("id", .str "x"), ("type", .str "message"), ("event", .str "batch"),
   ("data", .arr [.arr [.obj [("type", .str "chatters"), ("key", .str "a"),
     ("amount", .int 1)]]])]

/-- A field `getField` returns is the member list's first binding of that
name. -/
theorem getField_ok_lookup (fields : List (String × Json)) (name : String) (v : Json)
    (h : getField fields name = .ok v) : fields.lookup name = some v := by
  induction fields with
  | nil => simp [getField] at h
  | cons kv rest ih =>
      obtain ⟨k, w⟩ := kv
      by_cases hk : k = name
      · subst hk
        simp only [getField, if_pos rfl] at h
        cases hl : rest.lookup k with
        | none =>
            simp [hl] at h
            simp [List.lookup, h]
        | some u => simp [hl] at h
      · simp only [getField, if_neg hk] at h
        have h2 := ih h
        have hbk : (name == k) = false := by
          simp only [beq_eq_false_iff_ne, ne_eq]
          exact fun hh => hk hh.symm
        simp [List.lookup, hbk, h2]

/-- A name absent from the member list is a missing-field error, whatever
else the list holds. -/
theorem lookup_none_getField (fields : List (String × Json)) (name : String)
    (h : fields.lookup name = none) :
    getField fields name = .error ("missing field " ++ name) := by
  induction fields with
  | nil => rfl
  | cons kv rest ih =>
      obtain ⟨k, w⟩ := kv
      by_cases hk : k = name
      · exfalso
        subst hk
        simp [List.lookup] at h
      · have hbk : (name == k) = false := by
          simp only [beq_eq_false_iff_ne, ne_eq]
          exact fun hh => hk hh.symm
        have h2 : rest.lookup name = none := by
          simpa [List.lookup, hbk] using h
        simp [getField, hk, ih h2]

/-- A sequence whose elements are all maps never decodes as a stat change:
an empty one is missing its tag, and a map in tag position is not a string
tag. -/
theorem decode_seq_of_objs_fails (zs : List Json)
    (hzs : ∀ y ∈ zs, ∃ f, y = Json.obj f) :
    ∃ e0, decodeStatsChangeMessage (.arr zs) = .error e0 := by
  cases zs with
  | nil => exact ⟨"missing field type", rfl⟩
  | cons y rest =>
      obtain ⟨f, hf⟩ := hzs y (by simp)
      subst hf
      exact ⟨"invalid type: tag must be a string", rfl⟩

/-- The read half never terminates with the pump's graceful `Ok`: its only
terminations carry `ReadMessageError` or `SendIncomingMessageError`. -/
theorem readPhase_ne_term_ok (wrote : Option Message) (s : PumpState) (ev : IterEvent)
    (w : Option Message) : readPhase wrote s ev ≠ StepResult.term w (.ok ()) := by
  unfold readPhase
  split
  · cases ev.readResult with
    | error e => simp
    | ok m => by_cases hp : ev.pushOk = true <;> simp [hp]
  · simp

/-- The read half reports exactly the frame the write half already wrote. -/
theorem readPhase_wroteFrame (wrote : Option Message) (s : PumpState) (ev : IterEvent) :
    (readPhase wrote s ev).wroteFrame = wrote := by
  unfold readPhase
  split
  · cases ev.readResult with
    | error e => rfl
    | ok m => by_cases hp : ev.pushOk = true <;> simp [hp, StepResult.wroteFrame]
  · rfl

/-- The read half never touches the outgoing queue. -/
theorem readPhase_cont_outgoing (wrote : Option Message) (s : PumpState) (ev : IterEvent)
    (w : Option Message) (s1 : PumpState) (h : readPhase wrote s ev = .cont w s1) :
    s1.outgoing = s.outgoing := by
  unfold readPhase at h
  split at h
  · cases hr : ev.readResult with
    | error e => rw [hr] at h; cases h
    | ok m =>
        rw [hr] at h
        by_cases hp : ev.pushOk = true
        · simp [hp] at h
          rw [← h.2]
        · simp [hp] at h
  · cases h
    rfl

/-- C4: the pump loop body runs only while the socket can read and write and
both channel peers are connected; whenever the liveness guard is false at the
check, the iteration exits the loop and the pump's stored result is the
graceful `Ok(())` — and conversely, an `Ok` termination can only come from
the guard being false, never from the loop body. -/
theorem pump_guard_exit_ok (s : PumpState) (ev : IterEvent) :
    (pumpGuard s = false → pumpStep s ev = .term none (.ok ())) ∧
    (∀ w, pumpStep s ev = .term w (.ok ()) → pumpGuard s = false ∧ w = none) := by
  constructor
  · intro h
    simp [pumpStep, h]
  · intro w hw
    by_cases hg : pumpGuard s = true
    · exfalso
      cases ho : s.outgoing with
      | nil =>
          simp only [pumpStep, hg, ho, if_true] at hw
          exact readPhase_ne_term_ok _ _ _ _ hw
      | cons m rest =>
          by_cases hwk : ev.writeOk = true
          · simp only [pumpStep, hg, ho, hwk, if_true] at hw
            exact readPhase_ne_term_ok _ _ _ _ hw
          · simp only [pumpStep, hg, ho, if_true, hwk] at hw
            simp [hwk] at hw
    · have hg2 : pumpGuard s = false := by simpa using hg
      have h1 : pumpStep s ev = .term none (.ok ()) := by simp [pumpStep, hg2]
      rw [h1] at hw
      injection hw with h2 h3
      exact ⟨hg2, h2.symm⟩

/-- C4 witness: a state whose incoming consumer is gone fails the guard and
the iteration terminates with `Ok`. -/
theorem pump_guard_exit_ok_witness :
    pumpGuard ⟨true, true, true, false, [], []⟩ = false ∧
    pumpStep ⟨true, true, true, false, [], []⟩ ⟨.ok (.text "z"), true, true⟩ =
      .term none (.ok ()) :=
  ⟨by decide, (pump_guard_exit_ok _ _).1 (by decide)⟩

/-- C5: in an iteration whose guard holds and whose outgoing queue is
non-empty, the pump removes exactly the oldest message and writes it to the
socket as the iteration's single frame; a failed write terminates the pump
with `Err(WriteMessageError)`. -/
theorem pump_drains_one_outgoing (s : PumpState) (ev : IterEvent) (m : Message)
    (rest : List Message) (hg : pumpGuard s = true) (ho : s.outgoing = m :: rest) :
    (ev.writeOk = true →
        (pumpStep s ev).wroteFrame = some m ∧
        ∀ w s1, pumpStep s ev = .cont w s1 → s1.outgoing = rest) ∧
    (ev.writeOk = false → pumpStep s ev = .term none (.error .WriteMessageError)) := by
  constructor
  · intro hwk
    constructor
    · simp only [pumpStep, hg, ho, hwk, if_true]
      exact readPhase_wroteFrame _ _ _
    · intro w s1 hc
      simp only [pumpStep, hg, ho, hwk, if_true] at hc
      have h2 := readPhase_cont_outgoing _ _ _ _ _ hc
      simpa using h2
  · intro hwk
    simp only [pumpStep, hg, ho, if_true]
    rw [if_neg]
    simp [hwk]

/-- C5 witness: a concrete guarded iteration with one queued frame writes
exactly that frame. -/
theorem pump_drains_one_outgoing_witness :
    pumpGuard ⟨true, true, false, false, [Message.text "a"], []⟩ = true ∧
    (pumpStep ⟨true, true, false, false, [Message.text "a"], []⟩
        ⟨.ok (.text "b"), true, true⟩).wroteFrame = some (Message.text "a") :=
  ⟨by decide, ((pump_drains_one_outgoing _ _ _ [] (by decide) rfl).1 rfl).1⟩

/-- C2 (amended): in an iteration whose guard holds, in which the write half
does not terminate the pump, the incoming queue has room, the socket read
succeeds, and the push onto the incoming queue fails because the consumer
side disconnected after the guard check, the pump terminates with
`Err(SendIncomingMessageError)` — not with the graceful `Ok` the claim
states. -/
theorem push_failure_terminates_err (s : PumpState) (ev : IterEvent) (m : Message)
    (hg : pumpGuard s = true)
    (hwrite : s.outgoing = [] ∨ ev.writeOk = true)
    (hcap : s.incoming.length < incomingCapacity)
    (hread : ev.readResult = .ok m)
    (hpush : ev.pushOk = false) :
    ∃ w, pumpStep s ev = .term w (.error .SendIncomingMessageError) := by
  rcases hwrite with h | h
  · exact ⟨none, by simp [pumpStep, hg, h, readPhase, hcap, hread, hpush]⟩
  · cases ho : s.outgoing with
    | nil => exact ⟨none, by simp [pumpStep, hg, ho, readPhase, hcap, hread, hpush]⟩
    | cons m0 rest =>
        exact ⟨some m0, by simp [pumpStep, hg, ho, h, readPhase, hcap, hread, hpush]⟩

/-- C2 counterexample: a concrete iteration whose read succeeds and whose
push fails terminates the pump with `Err(SendIncomingMessageError)`, not
with `Ok` as the claim states. -/
theorem push_failure_not_ok_counterexample :
    pumpStep ⟨true, true, false, false, [], []⟩ ⟨.ok (.text "x"), true, false⟩ =
      .term none (.error .SendIncomingMessageError) ∧
    pumpStep ⟨true, true, false, false, [], []⟩ ⟨.ok (.text "x"), true, false⟩ ≠
      .term none (.ok ()) := by
  constructor
  · rfl
  · decide

/-- C2 witness: the amended statement at a concrete iteration. -/
theorem push_failure_terminates_err_witness :
    pumpGuard ⟨true, true, false, false, [], []⟩ = true ∧
    (∃ w, pumpStep ⟨true, true, false, false, [], []⟩ ⟨.ok (.text "y"), true, false⟩ =
        .term w (.error .SendIncomingMessageError)) :=
  ⟨by decide,
    push_failure_terminates_err _ _ (.text "y") (by decide) (.inl rfl) (by decide) rfl rfl⟩

/-- C1 counterexample: for the channel "global" the code's subscribe frame
is not the bare-room frame the claim states; it wraps the channel in the
twitchstats room path. -/
theorem subscribe_global_counterexample :
    subscribe_to_stats "global" ≠
      Message.text "\x7b\"command\":\"subscribe\",\"data\":\x7b\"room\":\"global\"\x7d\x7d" ∧
    subscribe_to_stats "global" =
      Message.text
        "\x7b\"command\":\"subscribe\",\"data\":\x7b\"room\":\"twitchstats:global:stats\"\x7d\x7d" := by
  constructor
  · decide
  · rfl

/-- C1 (amended): for every channel-name string s, the subscribe operation
encodes exactly the text frame whose room is "twitchstats:<s>:stats" — the
spec's subscribe-command shape with the channel name interpolated unescaped
and unmodified into the middle of the room path, not interpolated bare;
concretely, the "global" frame parses as that subscribe command object. -/
theorem subscribe_builds_twitchstats_room :
    (∀ channel, subscribe_to_stats channel =
        Message.text (encode_subscribe_spec ("twitchstats:" ++ channel ++ ":stats"))) ∧
    parseJson (subscribeCommand "global") =
      .ok (.obj [("command", .str "subscribe"),
        ("data", .obj [("room", .str "twitchstats:global:stats")])]) := by
  constructor
  · intro channel
    unfold subscribe_to_stats subscribeCommand encode_subscribe_spec
    congr 1
    have hA : ("\x7b\"command\":\"subscribe\",\"data\":\x7b\"room\":\"" ++ "twitchstats:" : String) =
        "\x7b\"command\":\"subscribe\",\"data\":\x7b\"room\":\"twitchstats:" := rfl
    have hB : ((":stats" ++ "\"\x7d\x7d" : String)) = ":stats\"\x7d\x7d" := rfl
    rw [← hB]
    simp only [String.append_assoc]
    conv_rhs => rw [← String.append_assoc]
    rw [hA]
  · rfl

set_option maxRecDepth 8192 in
/-- C8: the spec's concrete inputs decode to the stated typed values — the
chatters element, the emotes element, and the envelope with extra top-level
destination and event members, whose id is preserved and whose data has the
two entries. -/
theorem concrete_decode_examples :
    statChangeFromStr chattersExampleText = .ok (.Chatters "fishpat" 1) ∧
    statChangeFromStr emotesExampleText =
      .ok (.Emotes "DuckerZ" "573d38b50ffbf6cc5cc38dc9" "bttv" 62) ∧
    rawStatsFromStr envelopeExampleText =
      .ok ⟨"3d40e110-24fe-48a2-a76f-eac2b380ddb3", "message",
        [.Chatters "fishpat" 1, .Emotes "DuckerZ" "573d38b50ffbf6cc5cc38dc9" "bttv" 62]⟩ :=
  ⟨rfl, rfl, rfl⟩

/-- C3: an envelope whose data member is a non-empty sequence of sequences
of stat-change maps — the observed `event == "batch"` shape — fails to
decode: the model accepts only the flat shape. (An inner sequence of maps
never decodes as one stat change, since a map cannot serve as the variant
tag; serde's tag-first sequences, which carry a string in first position,
are a different shape from the observed batch traffic.) -/
theorem batch_shape_decode_fails (t : String) (fields : List (String × Json))
    (b : Json) (bs : List Json)
    (hparse : parseJson t = .ok (.obj fields))
    (hdata : fields.lookup "data" = some (.arr (b :: bs)))
    (hshape : ∀ x ∈ b :: bs, ∃ zs, x = Json.arr zs ∧ ∀ y ∈ zs, ∃ f, y = Json.obj f) :
    ∃ e, rawStatsFromStr t = .error e := by
  obtain ⟨zs, hbz, hobjs⟩ := hshape b (by simp)
  have hfail : ∃ e0, decodeStatsChangeMessage b = .error e0 := by
    subst hbz
    exact decode_seq_of_objs_fails zs hobjs
  obtain ⟨e0, he0⟩ := hfail
  have hmain : ∃ e, decodeRawStatsMessage (.obj fields) = .error e := by
    cases h1 : getField fields "id" with
    | error e => exact ⟨e, by simp [decodeRawStatsMessage, h1]⟩
    | ok v1 =>
        cases h2 : asString v1 with
        | error e => exact ⟨e, by simp [decodeRawStatsMessage, h1, h2]⟩
        | ok idv =>
            cases h3 : getField fields "type" with
            | error e => exact ⟨e, by simp [decodeRawStatsMessage, h1, h2, h3]⟩
            | ok v2 =>
                cases h4 : asString v2 with
                | error e => exact ⟨e, by simp [decodeRawStatsMessage, h1, h2, h3, h4]⟩
                | ok typv =>
                    cases h5 : getField fields "data" with
                    | error e =>
                        exact ⟨e, by simp [decodeRawStatsMessage, h1, h2, h3, h4, h5]⟩
                    | ok dv =>
                        have h6 := getField_ok_lookup fields "data" dv h5
                        rw [hdata] at h6
                        injection h6 with h7
                        subst h7
                        exact ⟨e0, by simp [decodeRawStatsMessage, h1, h2, h3, h4, h5,
                          decodeAll, he0]⟩
  obtain ⟨e, he⟩ := hmain
  exact ⟨e, by simp [rawStatsFromStr, hparse, he]⟩

set_option maxRecDepth 8192 in
/-- C3 witness: the concrete batch-shaped envelope is rejected. -/
theorem batch_shape_decode_fails_witness :
    ∃ e, rawStatsFromStr batchExampleText = .error e :=
  batch_shape_decode_fails batchExampleText batchExampleFields
    (.arr [.obj [("type", .str "chatters"), ("key", .str "a"), ("amount", .int 1)]]) []
    (by rfl) (by rfl)
    (by
      intro x hx
      simp only [List.mem_singleton] at hx
      subst hx
      refine ⟨[.obj [("type", .str "chatters"), ("key", .str "a"), ("amount", .int 1)]],
        rfl, ?_⟩
      intro y hy
      simp only [List.mem_singleton] at hy
      subst hy
      exact ⟨[("type", .str "chatters"), ("key", .str "a"), ("amount", .int 1)], rfl⟩)

/-- C6: decoding a StatChange map dispatches case-sensitively on the
lowercase tag strings "chatters" and "emotes" only; any other tag string is
an unknown-variant failure naming the tag, a missing tag is a failure naming
it, every required field of the declared variant that is missing — key or
amount for chatters; key, id, provider or amount for emotes — is a failure
naming that field, and every successful decode comes from one of the two
known tags, never a silently defaulted variant. -/
theorem stat_change_tag_dispatch (fields : List (String × Json)) (tag k ki kp : String) :
    (getField fields "type" = .ok (.str tag) → tag ≠ "chatters" → tag ≠ "emotes" →
        decodeStatsChangeMessage (.obj fields) =
          .error ("unknown variant " ++ tag ++ ", expected chatters or emotes")) ∧
    (fields.lookup "type" = none →
        decodeStatsChangeMessage (.obj fields) = .error "missing field type") ∧
    (getField fields "type" = .ok (.str "chatters") → fields.lookup "key" = none →
        decodeStatsChangeMessage (.obj fields) = .error "missing field key") ∧
    (getField fields "type" = .ok (.str "chatters") →
        getField fields "key" = .ok (.str k) → fields.lookup "amount" = none →
        decodeStatsChangeMessage (.obj fields) = .error "missing field amount") ∧
    (getField fields "type" = .ok (.str "emotes") → fields.lookup "key" = none →
        decodeStatsChangeMessage (.obj fields) = .error "missing field key") ∧
    (getField fields "type" = .ok (.str "emotes") →
        getField fields "key" = .ok (.str k) → fields.lookup "id" = none →
        decodeStatsChangeMessage (.obj fields) = .error "missing field id") ∧
    (getField fields "type" = .ok (.str "emotes") →
        getField fields "key" = .ok (.str k) → getField fields "id" = .ok (.str ki) →
        fields.lookup "provider" = none →
        decodeStatsChangeMessage (.obj fields) = .error "missing field provider") ∧
    (getField fields "type" = .ok (.str "emotes") →
        getField fields "key" = .ok (.str k) → getField fields "id" = .ok (.str ki) →
        getField fields "provider" = .ok (.str kp) → fields.lookup "amount" = none →
        decodeStatsChangeMessage (.obj fields) = .error "missing field amount") ∧
    (∀ r, decodeStatsChangeMessage (.obj fields) = .ok r →
        getField fields "type" = .ok (.str "chatters") ∨
        getField fields "type" = .ok (.str "emotes")) := by
  refine ⟨?_, ?_, ?_, ?_, ?_, ?_, ?_, ?_, ?_⟩
  · intro hgt h1 h2
    simp [decodeStatsChangeMessage, hgt, h1, h2]
  · intro hl
    simp [decodeStatsChangeMessage, lookup_none_getField fields "type" hl]
  · intro hgt hk
    simp [decodeStatsChangeMessage, hgt, decodeChatters,
      lookup_none_getField fields "key" hk]
  · intro hgt hk ha
    simp [decodeStatsChangeMessage, hgt, decodeChatters, hk, asString,
      lookup_none_getField fields "amount" ha]
  · intro hgt hk
    simp [decodeStatsChangeMessage, hgt, decodeEmotes,
      lookup_none_getField fields "key" hk]
  · intro hgt hk hi
    simp [decodeStatsChangeMessage, hgt, decodeEmotes, hk, asString,
      lookup_none_getField fields "id" hi]
  · intro hgt hk hi hp
    simp [decodeStatsChangeMessage, hgt, decodeEmotes, hk, hi, asString,
      lookup_none_getField fields "provider" hp]
  · intro hgt hk hi hp ha
    simp [decodeStatsChangeMessage, hgt, decodeEmotes, hk, hi, hp, asString,
      lookup_none_getField fields "amount" ha]
  · intro r hr
    cases hgt : getField fields "type" with
    | error e => simp [decodeStatsChangeMessage, hgt] at hr
    | ok v =>
        cases v with
        | str tg =>
            by_cases h1 : tg = "chatters"
            · subst h1
              exact .inl rfl
            · by_cases h2 : tg = "emotes"
              · subst h2
                exact .inr rfl
              · simp [decodeStatsChangeMessage, hgt, h1, h2] at hr
        | null => simp [decodeStatsChangeMessage, hgt] at hr
        | bool b => simp [decodeStatsChangeMessage, hgt] at hr
        | int n => simp [decodeStatsChangeMessage, hgt] at hr
        | floatNum => simp [decodeStatsChangeMessage, hgt] at hr
        | arr xs => simp [decodeStatsChangeMessage, hgt] at hr
        | obj fs => simp [decodeStatsChangeMessage, hgt] at hr

/-- C6 witness: a tag outside the two variants fails, naming itself. -/
theorem stat_change_tag_dispatch_witness :
    decodeStatsChangeMessage (.obj [("type", .str "follows"), ("key", .str "x"),
        ("amount", .int 1)]) =
      .error "unknown variant follows, expected chatters or emotes" :=
  (stat_change_tag_dispatch [("type", .str "follows"), ("key", .str "x"),
      ("amount", .int 1)] "follows" "" "" "").1 rfl (by decide) (by decide)

/-- A float-typed or negative amount value always fails u64 decoding. -/
theorem asU64_rejects (a : Json)
    (h : a = Json.floatNum ∨ ∃ n : Int, n < 0 ∧ a = .int n) :
    ∃ e0, asU64 a = .error e0 := by
  rcases h with h | ⟨n, hn, h⟩
  · exact ⟨"invalid type: float where u64 expected", by simp [h, asU64]⟩
  · subst h
    exact ⟨"invalid value: negative integer where u64 expected", by simp [asU64, hn]⟩

/-- If the first amount member of a chatters element fails u64 decoding, the
whole element fails to decode (a duplicated amount member already fails at
the field fetch). -/
theorem decodeChatters_err_of_amount (fields : List (String × Json)) (a : Json)
    (hf : fields.lookup "amount" = some a) (ha : ∃ e0, asU64 a = .error e0) :
    ∃ e, decodeChatters fields = .error e := by
  obtain ⟨e0, ha⟩ := ha
  cases h1 : getField fields "key" with
  | error e => exact ⟨e, by simp [decodeChatters, h1]⟩
  | ok v =>
      cases h2 : asString v with
      | error e => exact ⟨e, by simp [decodeChatters, h1, h2]⟩
      | ok kk =>
          cases h3 : getField fields "amount" with
          | error e => exact ⟨e, by simp [decodeChatters, h1, h2, h3]⟩
          | ok a2 =>
              have h4 := getField_ok_lookup fields "amount" a2 h3
              rw [hf] at h4
              injection h4 with h5
              subst h5
              exact ⟨e0, by simp [decodeChatters, h1, h2, h3, ha]⟩

/-- If the first amount member of an emotes element fails u64 decoding, the
whole element fails to decode. -/
theorem decodeEmotes_err_of_amount (fields : List (String × Json)) (a : Json)
    (hf : fields.lookup "amount" = some a) (ha : ∃ e0, asU64 a = .error e0) :
    ∃ e, decodeEmotes fields = .error e := by
  obtain ⟨e0, ha⟩ := ha
  cases h1 : getField fields "key" with
  | error e => exact ⟨e, by simp [decodeEmotes, h1]⟩
  | ok v1 =>
      cases h2 : asString v1 with
      | error e => exact ⟨e, by simp [decodeEmotes, h1, h2]⟩
      | ok kk =>
          cases h3 : getField fields "id" with
          | error e => exact ⟨e, by simp [decodeEmotes, h1, h2, h3]⟩
          | ok v2 =>
              cases h4 : asString v2 with
              | error e => exact ⟨e, by simp [decodeEmotes, h1, h2, h3, h4]⟩
              | ok ii =>
                  cases h5 : getField fields "provider" with
                  | error e => exact ⟨e, by simp [decodeEmotes, h1, h2, h3, h4, h5]⟩
                  | ok v3 =>
                      cases h6 : asString v3 with
                      | error e => exact ⟨e, by simp [decodeEmotes, h1, h2, h3, h4, h5, h6]⟩
                      | ok pp =>
                          cases h7 : getField fields "amount" with
                          | error e =>
                              exact ⟨e, by simp [decodeEmotes, h1, h2, h3, h4, h5, h6, h7]⟩
                          | ok a2 =>
                              have h8 := getField_ok_lookup fields "amount" a2 h7
                              rw [hf] at h8
                              injection h8 with h9
                              subst h9
                              exact ⟨e0, by simp [decodeEmotes, h1, h2, h3, h4, h5, h6,
                                h7, ha]⟩

/-- C7: a negative or float-typed (non-integral) amount is a u64 decode
failure; a stat-change element of either variant whose amount member is such
a value fails to decode; and every accepted amount is returned exactly and
is an unsigned 64-bit value — never truncated or coerced. -/
theorem amount_rejects_negative_nonintegral (fields : List (String × Json)) (j a : Json) :
    (∀ n : Int, n < 0 →
        asU64 (.int n) = .error "invalid value: negative integer where u64 expected") ∧
    asU64 .floatNum = .error "invalid type: float where u64 expected" ∧
    (∀ v : Nat, asU64 j = .ok v → v < 2 ^ 64 ∧ j = .int (v : Int)) ∧
    ((fields.lookup "type" = some (.str "chatters") ∨
        fields.lookup "type" = some (.str "emotes")) →
      fields.lookup "amount" = some a →
      (a = Json.floatNum ∨ ∃ n : Int, n < 0 ∧ a = .int n) →
      ∃ e, decodeStatsChangeMessage (.obj fields) = .error e) := by
  refine ⟨?_, rfl, ?_, ?_⟩
  · intro n hn
    simp [asU64, hn]
  · intro v hv
    cases j with
    | int n =>
        simp only [asU64] at hv
        split at hv
        next hneg => cases hv
        next hneg =>
          split at hv
          next hrange =>
            injection hv with h0
            subst h0
            refine ⟨by omega, ?_⟩
            congr 1
            omega
          next hrange => cases hv
    | null => simp [asU64] at hv
    | bool b => simp [asU64] at hv
    | floatNum => simp [asU64] at hv
    | str s => simp [asU64] at hv
    | arr xs => simp [asU64] at hv
    | obj fs => simp [asU64] at hv
  · intro htag hamt hbad
    have ha := asU64_rejects a hbad
    cases hgt : getField fields "type" with
    | error e => exact ⟨e, by simp [decodeStatsChangeMessage, hgt]⟩
    | ok v =>
        have hv := getField_ok_lookup fields "type" v hgt
        rcases htag with htag | htag
        · rw [htag] at hv
          injection hv with hv2
          subst hv2
          obtain ⟨e, he⟩ := decodeChatters_err_of_amount fields a hamt ha
          exact ⟨e, by simp [decodeStatsChangeMessage, hgt, he]⟩
        · rw [htag] at hv
          injection hv with hv2
          subst hv2
          obtain ⟨e, he⟩ := decodeEmotes_err_of_amount fields a hamt ha
          exact ⟨e, by simp [decodeStatsChangeMessage, hgt, he]⟩

/-- C7 witness: a chatters element with a negative amount fails to decode. -/
theorem amount_rejects_negative_nonintegral_witness :
    ∃ e, decodeStatsChangeMessage (.obj [("type", Json.str "chatters"),
        ("key", Json.str "x"), ("amount", Json.int (-5))]) = .error e :=
  (amount_rejects_negative_nonintegral [("type", .str "chatters"), ("key", .str "x"),
      ("amount", .int (-5))] .null (.int (-5))).2.2.2
    (.inl rfl) rfl (.inr ⟨-5, by decide, rfl⟩)

/-- C9: a frame that fails text conversion or JSON decoding raises its error
at the `recv_message` call that dequeues it, the queue keeps the later
frames, and the next call can still succeed; and the pump, reading that same
undecodable frame, just pushes it raw and continues running — the failure is
local to one receive, never the pump's. -/
theorem decode_failure_local_to_recv (bad good : Message) (rest : List Message)
    (e : Error) (v : List StatsChangeMessage)
    (hbad : processFrame bad = .error e)
    (hgood : processFrame good = .ok v)
    (s : PumpState) (ev : IterEvent)
    (hg : pumpGuard s = true) (ho : s.outgoing = [])
    (hcap : s.incoming.length < incomingCapacity)
    (hread : ev.readResult = .ok bad) (hpush : ev.pushOk = true) :
    recvMessage (bad :: good :: rest) = some (.error e, good :: rest) ∧
    recvMessage (good :: rest) = some (.ok v, rest) ∧
    pumpStep s ev = .cont none { s with incoming := s.incoming ++ [bad] } := by
  refine ⟨?_, ?_, ?_⟩
  · simp [recvMessage, hbad]
  · simp [recvMessage, hgood]
  · simp [pumpStep, hg, ho, readPhase, hcap, hread, hpush]

set_option maxRecDepth 8192 in
/-- C9 witness: a malformed text frame queued ahead of the flat example
envelope errors on the first receive and the second receive succeeds, while
a pump iteration reading the malformed frame continues. -/
theorem decode_failure_local_to_recv_witness :
    recvMessage [Message.text "notjson", Message.text envelopeExampleText] =
      some (.error (.ParseMessageError "unexpected character"),
        [Message.text envelopeExampleText]) ∧
    recvMessage [Message.text envelopeExampleText] =
      some (.ok [.Chatters "fishpat" 1,
        .Emotes "DuckerZ" "573d38b50ffbf6cc5cc38dc9" "bttv" 62], []) ∧
    pumpStep ⟨true, true, false, false, [], []⟩
        ⟨.ok (Message.text "notjson"), true, true⟩ =
      .cont none ⟨true, true, false, false, [], [Message.text "notjson"]⟩ :=
  decode_failure_local_to_recv (Message.text "notjson")
    (Message.text envelopeExampleText) [] (.ParseMessageError "unexpected character")
    [.Chatters "fishpat" 1, .Emotes "DuckerZ" "573d38b50ffbf6cc5cc38dc9" "bttv" 62]
    rfl rfl ⟨true, true, false, false, [], []⟩ ⟨.ok (Message.text "notjson"), true, true⟩
    (by decide) rfl (by decide) rfl rfl

/-- C10: the outgoing queue is bounded with capacity exactly 32 and never
drops under backpressure: 32 successive subscribe enqueues with no consumer
draining all push, and the 33rd suspends the caller instead of erroring or
dropping; in general any send against a full queue with a live receiver
suspends. -/
theorem outgoing_backpressure_suspends :
    initialOutgoing.cap = 32 ∧
    sendRepeat (subscribe_to_stats "global") 32 initialOutgoing =
      some ⟨32, List.replicate 32 (subscribe_to_stats "global")⟩ ∧
    sendAsync ⟨32, List.replicate 32 (subscribe_to_stats "global")⟩ true
        (subscribe_to_stats "global") = .suspended ∧
    (∀ q m, q.cap ≤ q.items.length → sendAsync q true m = .suspended) := by
  refine ⟨rfl, by decide, by decide, ?_⟩
  intro q m hq
  unfold sendAsync
  rw [if_neg (by simp), if_neg (by omega)]

/-- C10 witness: the general backpressure clause at the concrete full
32-element queue. -/
theorem outgoing_backpressure_suspends_witness :
    sendAsync ⟨32, List.replicate 32 (subscribe_to_stats "global")⟩ true
        (subscribe_to_stats "global") = .suspended :=
  outgoing_backpressure_suspends.2.2.2 _ (subscribe_to_stats "global") (by decide)

end StatsWs
